import Mathlib

/-!
Verification of the multi-modal RAG backend (`python-ml-backend`).

The Python services are shallowly embedded: pure fragments become Lean
functions, exceptions become explicit outcome values, and external
libraries (ChromaDB, the generation model, PIL) are abstracted into
parameters or environment records.  All definitions follow the source in
`app/services/rag_service.py`, `app/services/chroma_service.py` and
`app/main.py`.
-/

namespace MultiModalRAG

/-! ## Definitions -/

/-! ### Batched chunk storage (`RAGService._store_chunks_in_batches`) -/

/-- The fixed batch size used by `_store_chunks_in_batches` (rag_service.py
line 159). -/
def batch_size : Nat := 100

/-- Metadata attached to one stored chunk (rag_service.py lines 171-179). -/
structure ChunkMeta where
  filename : String
  chunk_index : Nat
  total_chunks : Nat
  batch_id : Nat
  deriving Repr, DecidableEq

/-- One call to `chroma_service.add_documents` (rag_service.py line 181): the
`documents`, `metadatas` and `ids` arguments of that call. -/
structure AddCall where
  documents : List String
  metadatas : List ChunkMeta
  ids : List String
  deriving Repr, DecidableEq

/-- The loop of `_store_chunks_in_batches`: Python's
`for i in range(0, total_chunks, batch_size)` taking `chunks[i:i+batch_size]`
each round, rendered as recursion on the not-yet-stored suffix (`i` is the
absolute index of the first remaining chunk). -/
def storeBatchesFrom (filename collection_name : String) (total_chunks : Nat) :
    List String → Nat → List AddCall
  | [], _ => []
  | c :: cs, i =>
    let batch_chunks := (c :: cs).take batch_size
    { documents := batch_chunks
      metadatas := (List.range batch_chunks.length).map fun j =>
        { filename := filename
          chunk_index := i + j
          total_chunks := total_chunks
          batch_id := i / batch_size }
      ids := (List.range batch_chunks.length).map fun j =>
        collection_name ++ "_" ++ toString (i + j) } ::
      storeBatchesFrom filename collection_name total_chunks
        ((c :: cs).drop batch_size) (i + batch_size)
  termination_by rem _ => rem.length
  decreasing_by simp [batch_size]; omega

/-- `RAGService._store_chunks_in_batches` (rag_service.py lines 157-181), as
the sequence of `add_documents` calls it issues, in order. -/
def store_chunks_in_batches (chunks : List String) (filename collection_name : String) :
    List AddCall :=
  storeBatchesFrom filename collection_name chunks.length chunks 0

/-- Decimal value of a digit-character list, used to invert `Nat.repr` when
proving chunk ids unique. -/
def decimalVal (l : List Char) : Nat :=
  l.foldl (fun acc c => 10 * acc + (c.toNat - 48)) 0

/-! ### File extension dispatch (`process_document`, `extract_text_from_file`) -/

/-- Python's `str.split('.')`: splits on every `'.'`, keeping empty pieces;
the result is always non-empty. -/
def splitDot : List Char → List (List Char)
  | [] => [[]]
  | c :: cs =>
    match splitDot cs with
    | [] => [[]]
    | g :: gs => if c = '.' then [] :: g :: gs else (c :: g) :: gs

/-- `filename.lower().split('.')[-1]` (rag_service.py lines 41 and 269):
lowercase the filename, split on `'.'`, take the last piece. -/
def file_extension (filename : String) : String :=
  String.mk ((splitDot (filename.data.map Char.toLower)).getLastD [])

/-- Which extraction/decoding path the extension dispatch selects, or the
unsupported-file-type failure. -/
inductive ExtractOutcome where
  | extractPdf
  | extractDocx
  | decodeUtf8
  | errorUnsupported (ext : String)
  deriving Repr, DecidableEq

/-- The extension dispatch of `RAGService.process_document` (rag_service.py
lines 41-55): `pdf`/`docx`/`txt` select their extractors; any other extension
raises `ValueError("Unsupported file type: ...")`. -/
def process_document_dispatch (filename : String) : ExtractOutcome :=
  let ext := file_extension filename
  if ext = "pdf" then .extractPdf
  else if ext = "docx" then .extractDocx
  else if ext = "txt" then .decodeUtf8
  else .errorUnsupported ext

/-- The extension dispatch of `RAGService.extract_text_from_file`
(rag_service.py lines 264-283): the same three supported branches, but the
final `else` (line 279) decodes the bytes as UTF-8 instead of failing. -/
def extract_text_from_file_dispatch (filename : String) : ExtractOutcome :=
  let ext := file_extension filename
  if ext = "pdf" then .extractPdf
  else if ext = "docx" then .extractDocx
  else if ext = "txt" then .decodeUtf8
  else .decodeUtf8

/-! ### Images and the image cache -/

/-- A PIL image as far as this code observes it: its dimensions and its color
mode string. -/
structure PilImage where
  width : Nat
  height : Nat
  mode : String
  deriving Repr, DecidableEq

/-- The `max_size` default `(800, 600)` of `_optimize_image` (rag_service.py
line 143). -/
def optimize_max_size : Nat × Nat := (800, 600)

/-- `RAGService._optimize_image` (rag_service.py lines 143-155). The PIL
`Image.thumbnail` call is an external resampling routine, passed in as
`thumbnail`; `fails` selects the `except` path (line 153), on which the
original image is returned unmodified.  `convert('RGB')` keeps the size and
replaces the mode. -/
def optimize_image (thumbnail : PilImage → Nat × Nat → PilImage) (fails : Bool)
    (image : PilImage) : PilImage :=
  if fails then image
  else
    let image :=
      if image.width > optimize_max_size.1 ∨ image.height > optimize_max_size.2 then
        thumbnail image optimize_max_size
      else image
    if image.mode ≠ "RGB" ∧ image.mode ≠ "L" then { image with mode := "RGB" }
    else image

/-- The image-caching step of `process_document` (rag_service.py lines 60-66):
only when the extracted image list is non-empty (`if images:`) are the
optimized images written to `IMAGE_CACHE[collection_name]`; `opt` stands for
`self._optimize_image`. -/
def process_document_cache_step (opt : PilImage → PilImage)
    (cache : String → Option (List PilImage)) (collection_name : String)
    (images : List PilImage) : String → Option (List PilImage) :=
  if images.isEmpty then cache
  else fun n => if n = collection_name then some (images.map opt) else cache n

/-- A concrete pre-existing `IMAGE_CACHE` holding one image for collection
`doc_1`. -/
def staleCache : String → Option (List PilImage) :=
  fun n => if n = "doc_1" then some [{ width := 10, height := 10, mode := "RGB" }] else none

/-! ### Answer generation (`RAGService.generate_response`) -/

/-- The chunk separator `"\n\n---\n\n"` of `generate_response` (rag_service.py
line 203). -/
def CONTEXT_SEP : String := "\n\n---\n\n"

/-- `max_context_length = 4000` (rag_service.py line 205). -/
def max_context_length : Nat := 4000

/-- Context assembly of `generate_response` (rag_service.py lines 199-207):
join the first query result entry's chunks with the separator; if longer than
4000 characters keep the first 4000 and append `"..."`.  `docs` is
`results['documents']`; an absent or empty first entry leaves the context
empty. -/
def build_text_context (docs : List (List String)) : String :=
  match docs with
  | [] => ""
  | relevant_chunks :: _ =>
    if relevant_chunks.isEmpty then ""
    else
      let text_context := String.intercalate CONTEXT_SEP relevant_chunks
      if text_context.length > max_context_length then
        String.mk (text_context.data.take max_context_length) ++ "..."
      else text_context

/-- Outcome of a call into an external service: a returned value or a raised
exception. -/
inductive Ext (α : Type) where
  | ok (a : α)
  | exc

/-- The query results returned by `chroma_service.query`, as observed by
`generate_response`: the `documents` field of the results dict. -/
structure QueryResults where
  documents : List (List String)

/-- One part of the multi-part prompt: a text fragment or an attached image. -/
inductive PromptPart where
  | text (s : String)
  | image (img : PilImage)

/-- Prompt assembly of `generate_response` (rag_service.py lines 213-229). -/
def assemble_prompt (query text_context : String) (images_context : List PilImage) :
    List PromptPart :=
  let prompt_parts : List PromptPart :=
    [ .text ("Question: " ++ query ++ "\n\n"),
      .text "Please answer the following question based ONLY on the provided context.",
      .text "If the information is not available in the text or images, clearly state that you cannot find the answer in the document.\n",
      .text "--- TEXT CONTEXT ---",
      .text (if text_context ≠ "" then text_context
             else "No relevant text was found in the document."),
      .text "--- END TEXT CONTEXT ---\n" ]
  let prompt_parts :=
    if images_context.isEmpty then prompt_parts
    else prompt_parts ++
      [.text ("\nAdditionally, " ++ toString images_context.length ++
        " images from the document are provided for context:")] ++
      images_context.map PromptPart.image
  prompt_parts ++ [.text "\nProvide a clear, concise answer based on the available context."]

/-- The fallback returned when the model yields no text (rag_service.py
line 240). -/
def no_response_fallback : String :=
  "I\x27m sorry, I couldn\x27t generate a response. Please try rephrasing your question."

/-- The fallback returned from the `except` handler (rag_service.py
line 244). -/
def error_fallback : String :=
  "I encountered an error while generating the response. Please try again."

/-- External collaborators of `generate_response`: the vector store
(`get_or_create_collection` and `query`), the `IMAGE_CACHE` dictionary, and
the generation model.  Each external call either returns a value or raises. -/
structure GenEnv where
  get_or_create_collection : Ext Unit
  query_call : Ext QueryResults
  image_cache : String → Option (List PilImage)
  generate_content : List PromptPart → Ext (Option String)

/-- `RAGService.generate_response` (rag_service.py lines 183-244).  All code
sits inside one `try`: any raising external call ends in the `except` handler
(`error_fallback`); a falsy `response.text` (absent or empty) yields
`no_response_fallback`; otherwise the model text is returned. -/
def generate_response (env : GenEnv) (query collection_name : String) : String :=
  match env.get_or_create_collection with
  | .exc => error_fallback
  | .ok _ =>
    match env.query_call with
    | .exc => error_fallback
    | .ok results =>
      let text_context := build_text_context results.documents
      let images_context := (env.image_cache collection_name).getD []
      let prompt_parts := assemble_prompt query text_context images_context
      match env.generate_content prompt_parts with
      | .exc => error_fallback
      | .ok none => no_response_fallback
      | .ok (some t) => if t = "" then no_response_fallback else t

/-- An environment in which every external call raises. -/
def envAllExc : GenEnv :=
  { get_or_create_collection := Ext.exc
    query_call := Ext.exc
    image_cache := fun _ => none
    generate_content := fun _ => Ext.exc }

/-! ### Upload endpoint (`main.upload_document`) -/

/-- `max_size = 50 * 1024 * 1024` (main.py line 105). -/
def max_upload_size : Nat := 50 * 1024 * 1024

/-- What the `try` body of `upload_document` does: complete, or raise an
`HTTPException`. -/
inductive TryOutcome where
  | completed
  | raisedHTTP (status : Nat) (detail : String)
  deriving Repr, DecidableEq

/-- The `try` body of `upload_document` (main.py lines 101-132): the size
check raises `HTTPException(413, "File too large. Maximum size is 50MB.")`
for payloads over 50 MB, before any task is scheduled; otherwise the
background ingestion task is scheduled and the success response returned. -/
def upload_try_body (file_len : Nat) : TryOutcome :=
  if file_len > max_upload_size then
    .raisedHTTP 413 "File too large. Maximum size is 50MB."
  else .completed

/-- What the caller of `POST /api/upload` observes: the HTTP status, whether
a background ingestion task was started, and the error detail. -/
structure UploadResponse where
  status : Nat
  task_started : Bool
  detail : String
  deriving Repr, DecidableEq

/-- `upload_document` (main.py lines 92-136): the `except Exception` handler
(line 134) catches every exception — including the `HTTPException(413, ...)`
raised by its own size check — and re-raises `HTTPException(500, str(e))`;
`str` of a Starlette `HTTPException` is `"{status_code\x7d: {detail\x7d"`. -/
def upload_document (file_len : Nat) : UploadResponse :=
  match upload_try_body file_len with
  | .completed => { status := 200, task_started := true, detail := "" }
  | .raisedHTTP s d =>
    { status := 500, task_started := false, detail := toString s ++ ": " ++ d }

/-! ### Collection deletion endpoint (`main.delete_collection`) -/

/-- The process state the deletion endpoint can touch: the vector store's
collections and the `IMAGE_CACHE` dictionary. -/
structure AppState where
  collections : List String
  image_cache : String → Option (List PilImage)

/-- The response of `DELETE /api/collections/{name\x7d`. -/
inductive DeleteResponse where
  | ok (message : String)
  | httpError (status : Nat)

/-- The `DELETE /api/collections/{collection_name\x7d` endpoint (main.py lines
183-191) calling `ChromaService.delete_collection` (chroma_service.py lines
102-114): the vector store drops the collection, or raises and a 500 is
surfaced; neither path touches `IMAGE_CACHE` (no call to
`clear_collection_cache`). -/
def delete_collection_endpoint (st : AppState) (name : String) (store_fails : Bool) :
    AppState × DeleteResponse :=
  if store_fails then (st, .httpError 500)
  else ({ st with collections := st.collections.filter (· != name) },
    .ok ("Collection \x27" ++ name ++ "\x27 deleted successfully"))

/-! ## Lemmas -/

lemma storeBatchesFrom_flatten_documents (f c : String) (t : Nat) (rem : List String) (i : Nat) :
    ((storeBatchesFrom f c t rem i).map AddCall.documents).flatten = rem := by
  induction rem, i using storeBatchesFrom.induct f c t with
  | case1 i => simp [storeBatchesFrom]
  | case2 ch cs i ih =>
    rw [storeBatchesFrom]
    simp only [List.map_cons, List.flatten_cons]
    rw [ih]
    exact List.take_append_drop _ _

lemma storeBatchesFrom_length (f c : String) (t : Nat) (rem : List String) (i : Nat) :
    (storeBatchesFrom f c t rem i).length = (rem.length + 99) / 100 := by
  induction rem, i using storeBatchesFrom.induct f c t with
  | case1 i => simp [storeBatchesFrom]
  | case2 ch cs i ih =>
    rw [storeBatchesFrom]
    simp only [List.length_cons]
    rw [ih]
    simp only [List.length_drop, List.length_cons, batch_size]
    omega

lemma storeBatchesFrom_flatten_metadatas (f c : String) (t : Nat) (rem : List String) (i : Nat)
    (hi : i % batch_size = 0) :
    ((storeBatchesFrom f c t rem i).map AddCall.metadatas).flatten =
      (List.range' i rem.length).map fun k =>
        { filename := f, chunk_index := k, total_chunks := t, batch_id := k / batch_size } := by
  induction rem, i using storeBatchesFrom.induct f c t with
  | case1 i => simp [storeBatchesFrom]
  | case2 ch cs i ih =>
    rw [storeBatchesFrom]
    simp only [List.map_cons, List.flatten_cons]
    rw [ih (by simp only [batch_size] at hi ⊢; omega)]
    rw [List.length_drop]
    rcases Nat.le_total batch_size (ch :: cs).length with h | h
    · have hsplit : List.range' i (ch :: cs).length =
          List.range' i batch_size ++
            List.range' (i + batch_size) ((ch :: cs).length - batch_size) := by
        rw [List.range'_append_1]
        congr 1
        omega
      rw [hsplit, List.map_append]
      congr 1
      rw [List.range'_eq_map_range, List.map_map, List.length_take, Nat.min_eq_left h]
      apply List.map_congr_left
      intro j hj
      simp only [List.mem_range] at hj
      simp only [Function.comp_apply, ChunkMeta.mk.injEq, true_and]
      simp only [batch_size] at hi hj ⊢
      omega
    · have h0 : (ch :: cs).length - batch_size = 0 := by omega
      rw [h0]
      simp only [List.range'_zero, List.map_nil, List.append_nil]
      rw [List.range'_eq_map_range, List.map_map, List.length_take, Nat.min_eq_right h]
      apply List.map_congr_left
      intro j hj
      simp only [List.mem_range] at hj
      simp only [Function.comp_apply, ChunkMeta.mk.injEq, true_and]
      have hj' : j < batch_size := by omega
      simp only [batch_size] at hi hj' ⊢
      omega

lemma storeBatchesFrom_flatten_ids (f c : String) (t : Nat) (rem : List String) (i : Nat) :
    ((storeBatchesFrom f c t rem i).map AddCall.ids).flatten =
      (List.range' i rem.length).map fun k => c ++ "_" ++ toString k := by
  induction rem, i using storeBatchesFrom.induct f c t with
  | case1 i => simp [storeBatchesFrom]
  | case2 ch cs i ih =>
    rw [storeBatchesFrom]
    simp only [List.map_cons, List.flatten_cons]
    rw [ih]
    rw [List.length_drop]
    rcases Nat.le_total batch_size (ch :: cs).length with h | h
    · have hsplit : List.range' i (ch :: cs).length =
          List.range' i batch_size ++
            List.range' (i + batch_size) ((ch :: cs).length - batch_size) := by
        rw [List.range'_append_1]
        congr 1
        omega
      rw [hsplit, List.map_append]
      congr 1
      rw [List.range'_eq_map_range, List.map_map, List.length_take, Nat.min_eq_left h]
      rfl
    · have h0 : (ch :: cs).length - batch_size = 0 := by omega
      rw [h0]
      simp only [List.range'_zero, List.map_nil, List.append_nil]
      rw [List.range'_eq_map_range, List.map_map, List.length_take, Nat.min_eq_right h]
      rfl

lemma decimalVal_append_singleton (l : List Char) (c : Char) :
    decimalVal (l ++ [c]) = 10 * decimalVal l + (c.toNat - 48) := by
  simp [decimalVal, List.foldl_append]

lemma digitChar_toNat_sub (m : Nat) (h : m < 10) : (Nat.digitChar m).toNat - 48 = m := by
  interval_cases m <;> decide

lemma toDigitsCore_append (fuel n : Nat) (ds : List Char) :
    Nat.toDigitsCore 10 fuel n ds = Nat.toDigitsCore 10 fuel n [] ++ ds := by
  induction fuel generalizing n ds with
  | zero => simp [Nat.toDigitsCore]
  | succ fuel ih =>
    rw [Nat.toDigitsCore]
    by_cases h : n / 10 = 0
    · simp [Nat.toDigitsCore, h]
    · rw [if_neg h]
      conv_rhs => rw [Nat.toDigitsCore, if_neg h]
      rw [ih (n / 10) (Nat.digitChar (n % 10) :: ds),
          ih (n / 10) [Nat.digitChar (n % 10)]]
      simp

lemma decimalVal_toDigitsCore (fuel n : Nat) (h : n < 10 ^ fuel) :
    decimalVal (Nat.toDigitsCore 10 fuel n []) = n := by
  induction fuel generalizing n with
  | zero =>
    interval_cases n
    simp [Nat.toDigitsCore, decimalVal]
  | succ fuel ih =>
    rw [Nat.toDigitsCore]
    by_cases h0 : n / 10 = 0
    · rw [if_pos h0]
      simp [decimalVal, digitChar_toNat_sub (n % 10) (Nat.mod_lt _ (by norm_num))]
      omega
    · rw [if_neg h0]
      rw [toDigitsCore_append]
      rw [decimalVal_append_singleton]
      rw [ih (n / 10) (by rw [pow_succ] at h; omega)]
      rw [digitChar_toNat_sub (n % 10) (Nat.mod_lt _ (by norm_num))]
      omega

lemma decimalVal_repr_data (n : Nat) : decimalVal (Nat.repr n).data = n := by
  have h : n < 10 ^ (n + 1) := by
    calc n < 10 ^ n := Nat.lt_pow_self (by norm_num) n
    _ ≤ 10 ^ (n + 1) := Nat.pow_le_pow_right (by norm_num) (Nat.le_succ n)
  have hdata : (Nat.repr n).data = Nat.toDigitsCore 10 (n + 1) n [] := rfl
  rw [hdata]
  exact decimalVal_toDigitsCore (n + 1) n h

lemma natRepr_injective : Function.Injective Nat.repr := by
  intro m n h
  have hval : decimalVal (Nat.repr m).data = decimalVal (Nat.repr n).data := by rw [h]
  rwa [decimalVal_repr_data, decimalVal_repr_data] at hval

lemma toString_nat_injective : Function.Injective (toString : Nat → String) :=
  natRepr_injective

lemma id_string_injective (c : String) :
    Function.Injective (fun k : Nat => c ++ "_" ++ toString k) := by
  intro m n h
  simp only at h
  have hd : (c ++ "_" ++ toString m).data = (c ++ "_" ++ toString n).data := by rw [h]
  simp only [String.data_append] at hd
  have hcancel := List.append_cancel_left hd
  exact toString_nat_injective (String.ext hcancel)

lemma splitDot_no_dot (l : List Char) (h : '.' ∉ l) : splitDot l = [l] := by
  induction l with
  | nil => rfl
  | cons c cs ih =>
    simp only [List.mem_cons, not_or] at h
    rw [splitDot, ih h.2]
    change (if c = '.' then [] :: cs :: ([] : List (List Char)) else (c :: cs) :: []) = [c :: cs]
    rw [if_neg (Ne.symm h.1)]

lemma toLower_dot (c : Char) (h : c.toLower = '.') : c = '.' := by
  rw [Char.toLower] at h
  split at h
  · rename_i hn
    exfalso
    have hb : ∀ n : Nat, n < 91 → 65 ≤ n → Char.ofNat (n + 32) ≠ '.' := by decide
    exact hb c.toNat (by omega) hn.1 h
  · exact h

/-! ## Claims -/

/-- C1: for every non-empty chunk sequence of length `N`,
`_store_chunks_in_batches` makes exactly `⌈N / 100⌉` — in natural-number
division, `(N + 99) / 100` — `add_documents` calls on the vector store, and
concatenating the `documents` arguments of those calls in call order
reproduces the original chunk sequence exactly. -/
theorem store_chunks_call_count_and_concat (chunks : List String)
    (filename collection_name : String) (hne : chunks ≠ []) :
    (store_chunks_in_batches chunks filename collection_name).length =
      (chunks.length + 99) / 100 ∧
    ((store_chunks_in_batches chunks filename collection_name).map
        AddCall.documents).flatten = chunks := by
  refine ⟨?_, ?_⟩
  · exact storeBatchesFrom_length filename collection_name chunks.length chunks 0
  · exact storeBatchesFrom_flatten_documents filename collection_name chunks.length chunks 0

/-- Witness for C1 at a concrete input: two chunks yield one call whose
documents are the chunks. -/
theorem store_chunks_call_count_and_concat_witness :
    (["alpha", "beta"] : List String) ≠ [] ∧
    ((store_chunks_in_batches ["alpha", "beta"] "doc.pdf" "col").length =
        (2 + 99) / 100 ∧
      ((store_chunks_in_batches ["alpha", "beta"] "doc.pdf" "col").map
          AddCall.documents).flatten = ["alpha", "beta"]) :=
  ⟨by decide, store_chunks_call_count_and_concat ["alpha", "beta"] "doc.pdf" "col" (by decide)⟩

/-- C2: the chunk at absolute position `k` (0-based) in an ingestion of `N`
chunks into collection `C` receives metadata `chunk_index = k`,
`total_chunks = N` and `batch_id = k / 100` (hence batch ids start at 0 and
are monotonically non-decreasing in `k`, as the last conjunct states), its id
is the string `C ++ "_" ++ k`, and the ingestion's flattened id list has no
duplicates. -/
theorem store_chunks_metadata_and_ids (chunks : List String) (filename C : String)
    (k k' : Nat) (hk : k < chunks.length) (hk' : k' < chunks.length) (hkk' : k ≤ k') :
    (((store_chunks_in_batches chunks filename C).map AddCall.metadatas).flatten)[k]? =
      some { filename := filename, chunk_index := k, total_chunks := chunks.length,
             batch_id := k / 100 } ∧
    (((store_chunks_in_batches chunks filename C).map AddCall.ids).flatten)[k]? =
      some (C ++ "_" ++ toString k) ∧
    (((store_chunks_in_batches chunks filename C).map AddCall.ids).flatten).Nodup ∧
    (∀ m m' : ChunkMeta,
      (((store_chunks_in_batches chunks filename C).map AddCall.metadatas).flatten)[k]? =
          some m →
      (((store_chunks_in_batches chunks filename C).map AddCall.metadatas).flatten)[k']? =
          some m' →
      m.batch_id ≤ m'.batch_id) := by
  have hmetas := storeBatchesFrom_flatten_metadatas filename C chunks.length chunks 0
    (by simp)
  have hids := storeBatchesFrom_flatten_ids filename C chunks.length chunks 0
  rw [store_chunks_in_batches, hmetas, hids, ← List.range_eq_range']
  have hget : ∀ j : Nat, j < chunks.length →
      ((List.range chunks.length).map fun n =>
        ({ filename := filename, chunk_index := n, total_chunks := chunks.length,
           batch_id := n / batch_size } : ChunkMeta))[j]? =
        some { filename := filename, chunk_index := j, total_chunks := chunks.length,
               batch_id := j / batch_size } := by
    intro j hj
    rw [List.getElem?_map, List.getElem?_range hj]
    rfl
  refine ⟨?_, ?_, ?_, ?_⟩
  · rw [hget k hk]
    rfl
  · rw [List.getElem?_map, List.getElem?_range hk]
    rfl
  · exact (List.nodup_range chunks.length).map (id_string_injective C)
  · intro m m' hm hm'
    rw [hget k hk] at hm
    rw [hget k' hk'] at hm'
    cases hm
    cases hm'
    exact Nat.div_le_div_right hkk'

/-- Witness for C2 at a concrete input: two chunks, positions 0 and 1. -/
theorem store_chunks_metadata_and_ids_witness :
    (0 < (["alpha", "beta"] : List String).length ∧
      1 < (["alpha", "beta"] : List String).length ∧ 0 ≤ 1) ∧
    ((((store_chunks_in_batches ["alpha", "beta"] "doc.pdf" "col").map
          AddCall.metadatas).flatten)[0]? =
        some { filename := "doc.pdf", chunk_index := 0, total_chunks := 2, batch_id := 0 } ∧
      (((store_chunks_in_batches ["alpha", "beta"] "doc.pdf" "col").map
          AddCall.ids).flatten)[0]? = some ("col" ++ "_" ++ toString 0) ∧
      (((store_chunks_in_batches ["alpha", "beta"] "doc.pdf" "col").map
          AddCall.ids).flatten).Nodup ∧
      (∀ m m' : ChunkMeta,
        (((store_chunks_in_batches ["alpha", "beta"] "doc.pdf" "col").map
            AddCall.metadatas).flatten)[0]? = some m →
        (((store_chunks_in_batches ["alpha", "beta"] "doc.pdf" "col").map
            AddCall.metadatas).flatten)[1]? = some m' →
        m.batch_id ≤ m'.batch_id)) :=
  ⟨⟨by decide, by decide, by decide⟩,
    store_chunks_metadata_and_ids ["alpha", "beta"] "doc.pdf" "col" 0 1
      (by decide) (by decide) (by decide)⟩

/-- C3 counterexample: on filename `data.csv` — extension `csv`, not one of
`pdf`/`docx`/`txt` — `extract_text_from_file` falls back to UTF-8 decoding
and does not fail with an unsupported-format error. -/
theorem extract_text_from_file_no_unsupported_error :
    extract_text_from_file_dispatch "data.csv" = ExtractOutcome.decodeUtf8 ∧
    ∀ e : String,
      extract_text_from_file_dispatch "data.csv" ≠ ExtractOutcome.errorUnsupported e :=
  ⟨rfl, fun _ h => ExtractOutcome.noConfusion h⟩

/-- C3 amended: both operations dispatch on the lowercase extension suffix;
for any suffix outside `pdf`/`docx`/`txt`, `process_document` fails with the
unsupported-file-type error, while `extract_text_from_file` instead falls
back to UTF-8 decoding. -/
theorem dispatch_unsupported_extension (filename : String)
    (h1 : file_extension filename ≠ "pdf")
    (h2 : file_extension filename ≠ "docx")
    (h3 : file_extension filename ≠ "txt") :
    process_document_dispatch filename =
      ExtractOutcome.errorUnsupported (file_extension filename) ∧
    extract_text_from_file_dispatch filename = ExtractOutcome.decodeUtf8 := by
  constructor
  · rw [process_document_dispatch]
    simp [h1, h2, h3]
  · rw [extract_text_from_file_dispatch]
    simp [h1, h2, h3]

/-- Witness for the amended C3 at the concrete filename `data.csv`. -/
theorem dispatch_unsupported_extension_witness :
    (file_extension "data.csv" ≠ "pdf" ∧ file_extension "data.csv" ≠ "docx" ∧
      file_extension "data.csv" ≠ "txt") ∧
    (process_document_dispatch "data.csv" =
        ExtractOutcome.errorUnsupported (file_extension "data.csv") ∧
      extract_text_from_file_dispatch "data.csv" = ExtractOutcome.decodeUtf8) :=
  ⟨⟨by decide, by decide, by decide⟩,
    dispatch_unsupported_extension "data.csv" (by decide) (by decide) (by decide)⟩

/-- C4: `generate_response` always returns a string — one of the error
fallback, the no-text fallback, or a non-empty model text; if retrieval or
generation raises, the `"encountered an error"` fallback is returned; if the
model yields no (or empty) text, the `"couldn\x27t generate a response"`
fallback is returned. -/
theorem generate_response_never_raises (env : GenEnv) (query collection_name : String) :
    (generate_response env query collection_name = error_fallback ∨
      generate_response env query collection_name = no_response_fallback ∨
      ∃ t, t ≠ "" ∧ generate_response env query collection_name = t) ∧
    (env.get_or_create_collection = Ext.exc ∨ env.query_call = Ext.exc →
      generate_response env query collection_name = error_fallback) ∧
    (∀ u results, env.get_or_create_collection = Ext.ok u →
      env.query_call = Ext.ok results →
      env.generate_content (assemble_prompt query (build_text_context results.documents)
          ((env.image_cache collection_name).getD [])) = Ext.exc →
      generate_response env query collection_name = error_fallback) ∧
    (∀ u results r, env.get_or_create_collection = Ext.ok u →
      env.query_call = Ext.ok results →
      env.generate_content (assemble_prompt query (build_text_context results.documents)
          ((env.image_cache collection_name).getD [])) = Ext.ok r →
      (r = none ∨ r = some "") →
      generate_response env query collection_name = no_response_fallback) := by
  refine ⟨?_, ?_, ?_, ?_⟩
  · rw [generate_response]
    cases env.get_or_create_collection with
    | exc => exact Or.inl rfl
    | ok u =>
      cases env.query_call with
      | exc => exact Or.inl rfl
      | ok results =>
        cases hg : env.generate_content (assemble_prompt query
            (build_text_context results.documents)
            ((env.image_cache collection_name).getD [])) with
        | exc => simp [hg]
        | ok r =>
          cases r with
          | none => simp [hg]
          | some t =>
            by_cases ht : t = ""
            · simp [hg, ht]
            · right; right
              exact ⟨t, ht, by simp [hg, ht]⟩
  · intro h
    rw [generate_response]
    rcases h with h | h
    · rw [h]
    · cases env.get_or_create_collection with
      | exc => rfl
      | ok u => rw [h]
  · intro u results hc hq hg
    rw [generate_response, hc, hq]
    simp [hg]
  · intro u results r hc hq hg hr
    rw [generate_response, hc, hq]
    rcases hr with hr | hr <;> subst hr <;> simp [hg]

/-- Witness for C4: in the environment where every external call raises, the
error fallback is returned. -/
theorem generate_response_never_raises_witness :
    (envAllExc.get_or_create_collection = Ext.exc ∨ envAllExc.query_call = Ext.exc) ∧
    generate_response envAllExc "q" "col" = error_fallback :=
  ⟨Or.inl rfl,
    (generate_response_never_raises envAllExc "q" "col").2.1 (Or.inl rfl)⟩

/-- C5: the assembled text context never exceeds 4000 characters plus the
length of the ellipsis marker, and equals the untruncated separator-join of
the retrieved chunks whenever that join is at most 4000 characters long. -/
theorem text_context_bounded (docs : List (List String)) :
    (build_text_context docs).length ≤ max_context_length + "...".length ∧
    (∀ chunks rest, docs = chunks :: rest →
      (String.intercalate CONTEXT_SEP chunks).length ≤ max_context_length →
      build_text_context docs = String.intercalate CONTEXT_SEP chunks) := by
  constructor
  · match docs with
    | [] => simp [build_text_context, max_context_length]
    | chunks :: rest =>
      rw [build_text_context]
      by_cases he : chunks.isEmpty
      · simp [he, max_context_length]
      · rw [if_neg he]
        by_cases hl : (String.intercalate CONTEXT_SEP chunks).length > max_context_length
        · rw [if_pos hl]
          rw [String.length_append]
          have h1 : (String.mk ((String.intercalate CONTEXT_SEP chunks).data.take
              max_context_length)).length ≤ max_context_length := by
            show ((String.intercalate CONTEXT_SEP chunks).data.take
              max_context_length).length ≤ _
            rw [List.length_take]
            exact Nat.min_le_left _ _
          omega
        · rw [if_neg hl]
          omega
  · intro chunks rest hdocs hle
    subst hdocs
    rw [build_text_context]
    by_cases he : chunks.isEmpty
    · rw [if_pos he]
      rw [List.isEmpty_iff.1 he]
      rfl
    · rw [if_neg he, if_neg (by omega)]

/-- Witness for C5 at a concrete short retrieval: no truncation happens. -/
theorem text_context_bounded_witness :
    (([["The sky is blue.", "Grass is green."]] : List (List String)) =
        ["The sky is blue.", "Grass is green."] :: [] ∧
      (String.intercalate CONTEXT_SEP
          ["The sky is blue.", "Grass is green."]).length ≤ max_context_length) ∧
    ((build_text_context [["The sky is blue.", "Grass is green."]]).length ≤
        max_context_length + "...".length ∧
      build_text_context [["The sky is blue.", "Grass is green."]] =
        String.intercalate CONTEXT_SEP ["The sky is blue.", "Grass is green."]) :=
  ⟨⟨rfl, by decide⟩,
    ⟨(text_context_bounded [["The sky is blue.", "Grass is green."]]).1,
      (text_context_bounded [["The sky is blue.", "Grass is green."]]).2
        ["The sky is blue.", "Grass is green."] [] rfl (by decide)⟩⟩

/-- C6 counterexample: on the internal-failure path the original image comes
back unmodified, so a CMYK input leaves `_optimize_image` with mode `CMYK` —
not one of the two supported modes, contradicting the claim that the output
mode is always supported "including on the internal-failure path". -/
theorem optimize_image_mode_counterexample :
    optimize_image (fun img _ => img) true
        { width := 100, height := 100, mode := "CMYK" } =
      { width := 100, height := 100, mode := "CMYK" } ∧
    ¬((optimize_image (fun img _ => img) true
        { width := 100, height := 100, mode := "CMYK" }).mode = "RGB" ∨
      (optimize_image (fun img _ => img) true
        { width := 100, height := 100, mode := "CMYK" }).mode = "L") := by
  constructor
  · rfl
  · intro h
    rcases h with h | h <;> exact absurd h (by decide)

/-- C6 amended: assuming PIL's `thumbnail` never enlarges either dimension,
`_optimize_image` never enlarges either dimension on any path; on the
success path the output mode is `RGB` or `L`; on the internal-failure path
the original image is returned unmodified (so its mode may be unsupported). -/
theorem optimize_image_amended (thumbnail : PilImage → Nat × Nat → PilImage)
    (hthumb : ∀ img sz, (thumbnail img sz).width ≤ img.width ∧
      (thumbnail img sz).height ≤ img.height)
    (fails : Bool) (image : PilImage) :
    (optimize_image thumbnail fails image).width ≤ image.width ∧
    (optimize_image thumbnail fails image).height ≤ image.height ∧
    (fails = false →
      (optimize_image thumbnail fails image).mode = "RGB" ∨
      (optimize_image thumbnail fails image).mode = "L") ∧
    (fails = true → optimize_image thumbnail fails image = image) := by
  cases fails with
  | true => exact ⟨Nat.le_refl _, Nat.le_refl _, fun h => by simp at h, fun _ => rfl⟩
  | false =>
    rw [optimize_image]
    simp only [if_false, Bool.false_eq_true]
    set resized :=
      if image.width > optimize_max_size.1 ∨ image.height > optimize_max_size.2 then
        thumbnail image optimize_max_size
      else image with hres
    have hsize : resized.width ≤ image.width ∧ resized.height ≤ image.height := by
      rw [hres]
      split
      · exact hthumb image optimize_max_size
      · exact ⟨Nat.le_refl _, Nat.le_refl _⟩
    by_cases hm : resized.mode ≠ "RGB" ∧ resized.mode ≠ "L"
    · rw [if_pos hm]
      exact ⟨hsize.1, hsize.2, fun _ => Or.inl rfl, fun h => by simp at h⟩
    · rw [if_neg hm]
      refine ⟨hsize.1, hsize.2, fun _ => ?_, fun h => by simp at h⟩
      by_cases h1 : resized.mode = "RGB"
      · exact Or.inl h1
      · exact Or.inr (by tauto)

/-- Witness for the amended C6: a shrinking thumbnail, the success path, and
a CMYK input that gets converted to RGB. -/
theorem optimize_image_amended_witness :
    ((optimize_image
        (fun img sz => { img with width := min img.width sz.1,
                                  height := min img.height sz.2 })
        false { width := 1000, height := 100, mode := "CMYK" }).width ≤ 1000 ∧
      (optimize_image
        (fun img sz => { img with width := min img.width sz.1,
                                  height := min img.height sz.2 })
        false { width := 1000, height := 100, mode := "CMYK" }).height ≤ 100 ∧
      (false = false →
        (optimize_image
          (fun img sz => { img with width := min img.width sz.1,
                                    height := min img.height sz.2 })
          false { width := 1000, height := 100, mode := "CMYK" }).mode = "RGB" ∨
        (optimize_image
          (fun img sz => { img with width := min img.width sz.1,
                                    height := min img.height sz.2 })
          false { width := 1000, height := 100, mode := "CMYK" }).mode = "L") ∧
      (false = true →
        optimize_image
          (fun img sz => { img with width := min img.width sz.1,
                                    height := min img.height sz.2 })
          false { width := 1000, height := 100, mode := "CMYK" } =
          { width := 1000, height := 100, mode := "CMYK" })) :=
  optimize_image_amended
    (fun img sz => { img with width := min img.width sz.1, height := min img.height sz.2 })
    (fun img sz => ⟨Nat.min_le_left _ _, Nat.min_le_left _ _⟩)
    false { width := 1000, height := 100, mode := "CMYK" }

/-- C7: a 50 MB + 1 byte upload is rejected before any background ingestion
task starts, but the `except Exception` handler converts the
`HTTPException(413, ...)` into a generic 500 internal error, so the status
surfaced to the caller is 500, not the 413 size-limit error the claim and
spec describe. -/
theorem upload_oversize_rejected_as_500 :
    upload_try_body (50 * 1024 * 1024 + 1) =
      TryOutcome.raisedHTTP 413 "File too large. Maximum size is 50MB." ∧
    (upload_document (50 * 1024 * 1024 + 1)).task_started = false ∧
    (upload_document (50 * 1024 * 1024 + 1)).status = 500 ∧
    (upload_document (50 * 1024 * 1024 + 1)).status ≠ 413 ∧
    (upload_document (50 * 1024 * 1024 + 1)).detail =
      "413: File too large. Maximum size is 50MB." := by
  refine ⟨?_, ?_, ?_, ?_, ?_⟩ <;> decide

/-- C8 counterexample: re-ingesting into collection `doc_1` a document with
zero qualifying images leaves the stale cache entry in place — the entry does
not become the (empty) optimized-image sequence of the new document. -/
theorem reingest_zero_images_keeps_old_entry :
    process_document_cache_step (fun i => i) staleCache "doc_1" [] "doc_1" =
      some [{ width := 10, height := 10, mode := "RGB" }] ∧
    process_document_cache_step (fun i => i) staleCache "doc_1" [] "doc_1" ≠
      some (([] : List PilImage).map (fun i => i)) := by
  constructor
  · rfl
  · intro h
    exact absurd h (by decide)

/-- C8 amended: a re-ingestion overwrites the Image Cache entry with the
newly optimized images only when the new document contains at least one
qualifying image; with zero images the whole cache — in particular the old
entry — is left unchanged. -/
theorem reingest_overwrites_when_images_present (opt : PilImage → PilImage)
    (cache : String → Option (List PilImage)) (collection_name : String)
    (images : List PilImage) :
    (images ≠ [] →
      process_document_cache_step opt cache collection_name images collection_name =
        some (images.map opt)) ∧
    (images = [] →
      process_document_cache_step opt cache collection_name images = cache) := by
  constructor
  · intro h
    rw [process_document_cache_step, if_neg (by simpa using h)]
    simp
  · intro h
    subst h
    rfl

/-- Witness for the amended C8: one image overwrites, and the empty list
leaves the cache unchanged. -/
theorem reingest_overwrites_when_images_present_witness :
    ([{ width := 20, height := 20, mode := "RGB" }] ≠ ([] : List PilImage)) ∧
    process_document_cache_step (fun i => i) staleCache "doc_1"
        [{ width := 20, height := 20, mode := "RGB" }] "doc_1" =
      some ([{ width := 20, height := 20, mode := "RGB" }].map (fun i => i)) :=
  ⟨by decide,
    (reingest_overwrites_when_images_present (fun i => i) staleCache "doc_1"
      [{ width := 20, height := 20, mode := "RGB" }]).1 (by decide)⟩

/-- C9: the collection-deletion endpoint never changes the Image Cache — on
the success path and on the store-failure path alike, the cache mapping of
the resulting state is exactly the input state's, so any entry for the
deleted collection remains. -/
theorem delete_collection_preserves_image_cache (st : AppState) (name : String)
    (store_fails : Bool) :
    (delete_collection_endpoint st name store_fails).1.image_cache = st.image_cache := by
  rw [delete_collection_endpoint]
  split <;> rfl

/-- C10: the extension used for dispatch is the piece after the last `'.'` of
the lowercased filename, so a dot-free filename is its own extension: a file
named exactly `pdf` takes the PDF branch and a file named exactly `txt` is
UTF-8 decoded rather than rejected as extensionless. -/
theorem extensionless_filename_is_extension (filename : String)
    (h : '.' ∉ filename.data) :
    file_extension filename = String.mk (filename.data.map Char.toLower) ∧
    process_document_dispatch "pdf" = ExtractOutcome.extractPdf ∧
    process_document_dispatch "txt" = ExtractOutcome.decodeUtf8 := by
  refine ⟨?_, rfl, rfl⟩
  rw [file_extension, splitDot_no_dot]
  · rfl
  · intro hmem
    obtain ⟨c, hc, hlc⟩ := List.mem_map.1 hmem
    exact h (toLower_dot c hlc ▸ hc)

/-- Witness for C10 at the dot-free filename `README`. -/
theorem extensionless_filename_is_extension_witness :
    ('.' ∉ "README".data) ∧
    (file_extension "README" = String.mk ("README".data.map Char.toLower) ∧
      process_document_dispatch "pdf" = ExtractOutcome.extractPdf ∧
      process_document_dispatch "txt" = ExtractOutcome.decodeUtf8) :=
  ⟨by decide, extensionless_filename_is_extension "README" (by decide)⟩

end MultiModalRAG
